import Mathlib

/-!
Shallow embedding of `src/shipm.py` (PtaterTot/Shipment), a cross-platform
meta-installer.  Pure string/list logic is translated directly; side effects
(prints, subprocess invocations, network requests, filesystem writes) are
modelled as an explicit trace of `Event`s, and Python exceptions as the
`Res.exn` constructor.  The environment (`Env`) supplies everything the
program observes from the outside world: `sys.argv`, `platform.system()`,
marker-file existence, the release-query response, per-URL download statuses
and subprocess exit codes.
-/

/-- Observable side effects of the program, in order of occurrence. -/
inductive Event where
  | print (s : String)
  | runCmd (cmd : List String)
  | httpGet (url : String)
  | writeFile (path : String)
  | makeDir (d : String)
  | extractZip (src dest : String)
  | extractTar (src dest : String)
deriving DecidableEq

/-- A release asset as returned by the hosting API: `name` and `browser_download_url`. -/
structure Asset where
  name : String
  url : String
deriving DecidableEq

/-- Per-package metadata from the `PACKAGES` table: `repo` and the per-distro `deps` mapping. -/
structure PkgInfo where
  repo : String
  deps : List (String × List String)
deriving DecidableEq

/-- The static `PACKAGES` configuration table of `shipm.py`. -/
def PACKAGES : List (String × PkgInfo) :=
  [("fastfetch",
     { repo := "fastfetch-cli/fastfetch",
       deps := [("debian", ["curl", "libc6"]), ("arch", ["curl"]),
                ("fedora", ["curl"]), ("windows", [])] }),
   ("nvim",
     { repo := "neovim/neovim",
       deps := [("debian", ["python3"]), ("arch", ["python"]),
                ("fedora", ["python3"]), ("windows", [])] })]

/-- Dictionary lookup `PACKAGES[pkg]` guarded by `pkg in PACKAGES`. -/
def lookupPkg (n : String) : Option PkgInfo :=
  PACKAGES.lookup n

/-- Python `pkg_info["deps"].get(distro, [])`. -/
def getDeps (p : PkgInfo) (distro : String) : List String :=
  (p.deps.lookup distro).getD []

/-- The outside world as observed by the program. -/
structure Env where
  argv : List String
  rawSystem : String
  pathExists : String → Bool
  releaseStatus : Nat
  releaseAssets : List Asset
  assetStatus : String → Nat
  exitCode : List String → Int
  dirs : List String

/-- Python `subprocess.run(cmd)`: returns the completed process (here its exit
code) and leaves a `runCmd` event in the trace.  No call site of `shipm.py`
examines the returned object. -/
def subprocess_run (env : Env) (cmd : List String) : Int × Event :=
  (env.exitCode cmd, Event.runCmd cmd)

/-- ASCII lowering, modelling Python `str.lower()` on `platform.system()` output. -/
def lower (s : String) : String :=
  String.mk (s.data.map Char.toLower)

/-- Python `os.path.basename`: the part after the last `/`. -/
def basename (p : String) : String :=
  String.mk ((p.data.reverse.takeWhile (fun c => c != '/')).reverse)

/-- Boolean list-prefix test, structural recursion on the pattern. -/
def startsWithL : List Char → List Char → Bool
  | [], _ => true
  | _ :: _, [] => false
  | p :: ps, c :: cs => p == c && startsWithL ps cs

/-- Python `str.endswith`. -/
def endswith (s suf : String) : Bool :=
  startsWithL suf.data.reverse s.data.reverse

/-- Python `pat in hay` (substring containment). -/
def hasSub (pat : List Char) : List Char → Bool
  | [] => pat.isEmpty
  | c :: rest => startsWithL pat (c :: rest) || hasSub pat rest

/-- String-level substring containment: `strContains hay pat` is Python `pat in hay`. -/
def strContains (hay pat : String) : Bool :=
  hasSub pat.data hay.data

/-- Translation of `detect_system()` from `shipm.py`: probes
`platform.system().lower()` and the three distro marker files in priority
order Debian, Arch, Fedora. -/
def detect_system (rawSystem : String) (pathExists : String → Bool) : String × String :=
  let system := lower rawSystem
  if system = "linux" then
    if pathExists "/etc/debian_version" = true then (system, "debian")
    else if pathExists "/etc/arch-release" = true then (system, "arch")
    else if pathExists "/etc/fedora-release" = true then (system, "fedora")
    else (system, "unknown")
  else if system = "windows" then (system, "windows")
  else (system, "unknown")

/-- The `Installing dependencies: ...` header line printed by `install_dependencies`. -/
def depsHeader (deps : List String) : Event :=
  Event.print ("Installing dependencies: " ++ String.intercalate " " deps)

/-- Translation of `install_dependencies(pkg_info, distro)` from `shipm.py`,
as the trace of events it produces. -/
def install_dependencies (env : Env) (pkg_info : PkgInfo) (distro : String) : List Event :=
  if getDeps pkg_info distro = [] then [Event.print "No dependencies needed."]
  else if distro = "debian" then
    [depsHeader (getDeps pkg_info distro),
     (subprocess_run env ["sudo", "apt", "update"]).2,
     (subprocess_run env (["sudo", "apt", "install", "-y"] ++ getDeps pkg_info distro)).2]
  else if distro = "arch" then
    [depsHeader (getDeps pkg_info distro),
     (subprocess_run env (["sudo", "pacman", "-Sy", "--needed"] ++ getDeps pkg_info distro)).2]
  else if distro = "fedora" then
    [depsHeader (getDeps pkg_info distro),
     (subprocess_run env (["sudo", "dnf", "install", "-y"] ++ getDeps pkg_info distro)).2]
  else if distro = "windows" then
    [depsHeader (getDeps pkg_info distro),
     Event.print "Windows: please install dependencies manually (or extend me!)"]
  else
    [depsHeader (getDeps pkg_info distro),
     Event.print "Unknown distro, skipping dependency install."]

/-- Python `os.makedirs(d, exist_ok=ok)` over an abstract directory set:
raises `FileExistsError` when the directory exists and `exist_ok` is false. -/
def makedirs (d : String) (exist_ok : Bool) (dirs : List String) : Except String (List String) :=
  if d ∈ dirs then
    if exist_ok then Except.ok dirs else Except.error ("FileExistsError: " ++ d)
  else Except.ok (d :: dirs)

/-- Outcome of a fragment of the program: a trace of events plus either a
returned value or a propagating Python exception. -/
inductive Res (α : Type) where
  | ok (events : List Event) (val : α)
  | exn (events : List Event) (msg : String)
deriving DecidableEq

/-- The event trace of an outcome, whether it returned or raised. -/
def eventsOf {α : Type} : Res α → List Event
  | Res.ok evs _ => evs
  | Res.exn evs _ => evs

/-- Whether an outcome is a propagating exception. -/
def Res.isExn {α : Type} : Res α → Bool
  | Res.ok _ _ => false
  | Res.exn _ _ => true

/-- The per-asset download loop of `download_latest`: for each asset, print,
issue `requests.get(url, stream=True)`, and either raise (via
`raise_for_status()`, when the response status is an HTTP error, i.e. >= 400)
or write the file and record its path. -/
def download_loop (env : Env) (output_dir : String) : List Asset → Res (List String)
  | [] => Res.ok [] []
  | asset :: rest =>
    let path := output_dir ++ "/" ++ asset.name
    let pre := [Event.print ("Downloading " ++ asset.name), Event.httpGet asset.url]
    if 400 ≤ env.assetStatus asset.url then
      Res.exn pre ("HTTPError: status " ++ toString (env.assetStatus asset.url)
                   ++ " for " ++ asset.url)
    else
      let pre2 := pre ++ [Event.writeFile path, Event.print ("Saved to " ++ path)]
      match download_loop env output_dir rest with
      | Res.ok evs files => Res.ok (pre2 ++ evs) (path :: files)
      | Res.exn evs m => Res.exn (pre2 ++ evs) m

/-- Translation of `download_latest(repo, output_dir="downloads")` from
`shipm.py`.  Returns the updated directory set together with the value the
Python function returns (`None` on a failed release query or an empty asset
list, otherwise the list of downloaded paths). -/
def download_latest (env : Env) (repo : String) (dirs : List String) :
    Res (List String × Option (List String)) :=
  let api_url := "https://api.github.com/repos/" ++ repo ++ "/releases/latest"
  let q := Event.httpGet api_url
  if env.releaseStatus ≠ 200 then
    Res.ok [q, Event.print ("Error: Could not fetch release for " ++ repo)] (dirs, none)
  else if env.releaseAssets = [] then
    Res.ok [q, Event.print "No assets found in latest release."] (dirs, none)
  else
    match makedirs "downloads" true dirs with
    | Except.error m => Res.exn [q] m
    | Except.ok dirs2 =>
      match download_loop env "downloads" env.releaseAssets with
      | Res.ok evs files => Res.ok (q :: Event.makeDir "downloads" :: evs) (dirs2, some files)
      | Res.exn evs m => Res.exn (q :: Event.makeDir "downloads" :: evs) m

/-- The top-level dispatch arm taken by `install_file`. -/
inductive InstallBranch where
  | debB
  | rpmB
  | zipB
  | tarB
  | unknownB
deriving DecidableEq

/-- Result of one `install_file` call: its event trace, the dispatch arm
taken, the extraction directory (for archive arms) and the updated directory
set. -/
structure InstallResult where
  events : List Event
  branch : InstallBranch
  extractDir : Option String
  dirs : List String
deriving DecidableEq

/-- Translation of `install_file(path, system, distro)` from `shipm.py`:
suffix dispatch with the `.deb` and `.rpm` arms additionally gated on
`system == "linux"`, archive arms extracting into `path + "_extracted"`. -/
def install_file (env : Env) (path system distro : String) (dirs : List String) :
    Except String InstallResult :=
  if endswith path ".deb" = true ∧ system = "linux" then
    if distro = "debian" then
      Except.ok { events := [Event.print ("Installing " ++ basename path ++ " ..."),
                    (subprocess_run env ["sudo", "apt", "install", "-y", path]).2],
                  branch := InstallBranch.debB, extractDir := none, dirs := dirs }
    else
      Except.ok { events := [Event.print ("Installing " ++ basename path ++ " ..."),
                    Event.print "Warning: .deb on non-Debian systems may not work.",
                    (subprocess_run env ["sudo", "dpkg", "-i", path]).2],
                  branch := InstallBranch.debB, extractDir := none, dirs := dirs }
  else if endswith path ".rpm" = true ∧ system = "linux" then
    Except.ok { events := [Event.print ("Installing " ++ basename path ++ " ..."),
                  (subprocess_run env ["sudo", "rpm", "-i", path]).2],
                branch := InstallBranch.rpmB, extractDir := none, dirs := dirs }
  else if endswith path ".zip" = true then
    match makedirs (path ++ "_extracted") true dirs with
    | Except.error m => Except.error m
    | Except.ok dirs2 =>
      Except.ok { events := [Event.print ("Installing " ++ basename path ++ " ..."),
                    Event.makeDir (path ++ "_extracted"),
                    Event.extractZip path (path ++ "_extracted"),
                    Event.print ("Extracted to: " ++ (path ++ "_extracted"))],
                  branch := InstallBranch.zipB, extractDir := some (path ++ "_extracted"),
                  dirs := dirs2 }
  else if endswith path ".tar.gz" = true ∨ endswith path ".tgz" = true
          ∨ endswith path ".tar.xz" = true ∨ endswith path ".tar" = true then
    match makedirs (path ++ "_extracted") true dirs with
    | Except.error m => Except.error m
    | Except.ok dirs2 =>
      Except.ok { events := [Event.print ("Installing " ++ basename path ++ " ..."),
                    Event.makeDir (path ++ "_extracted"),
                    Event.extractTar path (path ++ "_extracted"),
                    Event.print ("Extracted to: " ++ (path ++ "_extracted"))],
                  branch := InstallBranch.tarB, extractDir := some (path ++ "_extracted"),
                  dirs := dirs2 }
  else
    Except.ok { events := [Event.print ("Installing " ++ basename path ++ " ..."),
                  Event.print ("Unknown file type: " ++ path)],
                branch := InstallBranch.unknownB, extractDir := none, dirs := dirs }

/-- The dispatch arm of an `install_file` outcome. -/
def branchOf (r : Except String InstallResult) : Option InstallBranch :=
  match r with
  | Except.ok x => some x.branch
  | Except.error _ => none

/-- The `for f in files: install_file(f, system, distro)` loop of `main`. -/
def install_loop (env : Env) (system distro : String) :
    List String → List String → Res (List String)
  | dirs, [] => Res.ok [] dirs
  | dirs, f :: rest =>
    match install_file env f system distro dirs with
    | Except.error m => Res.exn [] m
    | Except.ok r =>
      match install_loop env system distro r.dirs rest with
      | Res.ok evs d => Res.ok (r.events ++ evs) d
      | Res.exn evs m => Res.exn (r.events ++ evs) m

/-- Translation of the `main()` function of `shipm.py` (named `shipm_main` here since Lean reserves `main`): argument check, package lookup,
system detection, then the `deps` / `install` / unknown-command dispatch. -/
def shipm_main (env : Env) : Res Unit :=
  if env.argv.length < 3 then
    Res.ok [Event.print "Usage: shipm <install|deps> <package>"] ()
  else
    match lookupPkg (env.argv.getD 2 "") with
    | none =>
      Res.ok [Event.print ("Unknown package '" ++ env.argv.getD 2 "" ++ "'"),
              Event.print ("Available: " ++ String.intercalate ", " (PACKAGES.map Prod.fst))] ()
    | some pkg_info =>
      if env.argv.getD 1 "" = "deps" then
        Res.ok (Event.print ("System: " ++ (detect_system env.rawSystem env.pathExists).1
            ++ ", Distro: " ++ (detect_system env.rawSystem env.pathExists).2)
          :: install_dependencies env pkg_info (detect_system env.rawSystem env.pathExists).2) ()
      else if env.argv.getD 1 "" = "install" then
        match download_latest env pkg_info.repo env.dirs with
        | Res.exn evs m =>
          Res.exn (Event.print ("System: " ++ (detect_system env.rawSystem env.pathExists).1
              ++ ", Distro: " ++ (detect_system env.rawSystem env.pathExists).2)
            :: install_dependencies env pkg_info (detect_system env.rawSystem env.pathExists).2
            ++ evs) m
        | Res.ok evs (dirs2, files) =>
          match files with
          | none =>
            Res.ok (Event.print ("System: " ++ (detect_system env.rawSystem env.pathExists).1
                ++ ", Distro: " ++ (detect_system env.rawSystem env.pathExists).2)
              :: install_dependencies env pkg_info (detect_system env.rawSystem env.pathExists).2
              ++ evs) ()
          | some fs =>
            match install_loop env (detect_system env.rawSystem env.pathExists).1
                (detect_system env.rawSystem env.pathExists).2 dirs2 fs with
            | Res.ok evs2 _ =>
              Res.ok (Event.print ("System: " ++ (detect_system env.rawSystem env.pathExists).1
                  ++ ", Distro: " ++ (detect_system env.rawSystem env.pathExists).2)
                :: install_dependencies env pkg_info (detect_system env.rawSystem env.pathExists).2
                ++ evs ++ evs2) ()
            | Res.exn evs2 m =>
              Res.exn (Event.print ("System: " ++ (detect_system env.rawSystem env.pathExists).1
                  ++ ", Distro: " ++ (detect_system env.rawSystem env.pathExists).2)
                :: install_dependencies env pkg_info (detect_system env.rawSystem env.pathExists).2
                ++ evs ++ evs2) m
      else
        Res.ok [Event.print ("System: " ++ (detect_system env.rawSystem env.pathExists).1
            ++ ", Distro: " ++ (detect_system env.rawSystem env.pathExists).2),
          Event.print ("Unknown command '" ++ env.argv.getD 1 "" ++ "'")] ()

/-- Whether an event is a network request. -/
def Event.isNet : Event → Bool
  | Event.httpGet _ => true
  | _ => false

/-- Whether an event writes a file. -/
def Event.isWrite : Event → Bool
  | Event.writeFile _ => true
  | _ => false

/-- Whether an event creates a directory. -/
def Event.isMkdir : Event → Bool
  | Event.makeDir _ => true
  | _ => false

/-- Whether an event is an archive extraction. -/
def Event.isExtract : Event → Bool
  | Event.extractZip _ _ => true
  | Event.extractTar _ _ => true
  | _ => false

/-- Whether an event is a subprocess invocation. -/
def Event.isRun : Event → Bool
  | Event.runCmd _ => true
  | _ => false

/-- Whether an event is a console print. -/
def Event.isPrint : Event → Bool
  | Event.print _ => true
  | _ => false

/-- Outcome of a single-asset resolution (spec section 4.4). -/
inductive ResolveResult where
  | found (a : Asset)
  | notFound
  | fetchError
deriving DecidableEq

/-- Modelled from the spec: `ReleaseResolver.resolveLatestAsset(repoId, matchPattern)`
(spec section 4.4).  The single-asset selection variant is absent from `src/` —
`src/shipm.py` contains only the download-all-assets variant (`download_latest`)
and its `PACKAGES` table has no per-distro `assetMatch` patterns; spec section 9
notes the full source has both near-duplicate variants.  Following the spec's
words: a non-2xx release query yields `fetchError`; otherwise scan the asset
list in order and return the first asset whose filename contains the pattern as
a (case-sensitive) substring, `notFound` if none match. -/
def resolveLatestAsset (status : Nat) (assets : List Asset) (pat : String) : ResolveResult :=
  if status ≠ 200 then ResolveResult.fetchError
  else
    match assets.find? (fun a => strContains a.name pat) with
    | some a => ResolveResult.found a
    | none => ResolveResult.notFound

/-- Modelled from the spec: `AssetCache.fetch(asset, force)` (spec section 4.5),
absent from `src/` — `src/shipm.py`'s `download_latest` variant downloads
unconditionally with no cache check and no `force` flag.  Following the spec's
words: if `force` is false and a file named `asset.name` already exists under
the cache root, return its path immediately without network access; otherwise
stream the bytes from the download URL to that path, raising a fetch error on a
non-2xx (HTTP error) response. -/
def cache_fetch (asset : Asset) (force : Bool) (cacheRoot : String)
    (fileExists : String → Bool) (status : String → Nat) : Res String :=
  let path := cacheRoot ++ "/" ++ asset.name
  if force = false ∧ fileExists path = true then
    Res.ok [] path
  else if 400 ≤ status asset.url then
    Res.exn [Event.httpGet asset.url] ("fetch error: status " ++ toString (status asset.url))
  else
    Res.ok [Event.httpGet asset.url, Event.writeFile path] path

/-- A minimal concrete environment used to instantiate theorems at concrete inputs. -/
def envA : Env :=
  { argv := []
    rawSystem := ""
    pathExists := fun _ => false
    releaseStatus := 0
    releaseAssets := []
    assetStatus := fun _ => 0
    exitCode := fun _ => 0
    dirs := [] }

/-- A concrete environment in which the latest release of `fastfetch` has one
asset whose download URL answers 404. -/
def envNotFound : Env :=
  { argv := ["shipm", "install", "fastfetch"]
    rawSystem := "Linux"
    pathExists := fun _ => false
    releaseStatus := 200
    releaseAssets := [{ name := "fastfetch.deb", url := "http://x/fastfetch.deb" }]
    assetStatus := fun _ => 404
    exitCode := fun _ => 0
    dirs := [] }

/-- A concrete environment in which every request succeeds: `fastfetch` has one
`.deb` asset, the system is Debian Linux, subprocesses exit 0. -/
def envGood : Env :=
  { argv := ["shipm", "install", "fastfetch"]
    rawSystem := "Linux"
    pathExists := fun p => p = "/etc/debian_version"
    releaseStatus := 200
    releaseAssets := [{ name := "fastfetch.deb", url := "http://x/fastfetch.deb" }]
    assetStatus := fun _ => 200
    exitCode := fun _ => 0
    dirs := [] }

lemma startsWithL_iff (p l : List Char) : startsWithL p l = true ↔ ∃ t, l = p ++ t := by
  induction p generalizing l with
  | nil => simp [startsWithL]
  | cons x xs ih =>
    cases l with
    | nil => simp [startsWithL]
    | cons c cs =>
      simp only [startsWithL, Bool.and_eq_true, beq_iff_eq, ih]
      constructor
      · rintro ⟨rfl, t, rfl⟩
        exact ⟨t, rfl⟩
      · rintro ⟨t, ht⟩
        injection ht with h1 h2
        exact ⟨h1.symm, t, h2⟩

lemma endswith_sub (s a b : String) (hlen : a.data.length ≤ b.data.length)
    (ha : endswith s a = true) (hb : endswith s b = true) :
    startsWithL a.data.reverse b.data.reverse = true := by
  rw [endswith, startsWithL_iff] at ha hb
  obtain ⟨t1, ht1⟩ := ha
  obtain ⟨t2, ht2⟩ := hb
  rw [startsWithL_iff]
  have hsplit : b.data.reverse = b.data.reverse.take a.data.reverse.length
      ++ b.data.reverse.drop a.data.reverse.length := (List.take_append_drop _ _).symm
  have hcomb : a.data.reverse ++ t1
      = b.data.reverse.take a.data.reverse.length
        ++ (b.data.reverse.drop a.data.reverse.length ++ t2) := by
    rw [← List.append_assoc, ← hsplit, ← ht2, ht1]
  have hlen2 : a.data.reverse.length
      = (b.data.reverse.take a.data.reverse.length).length := by
    simp only [List.length_take, List.length_reverse]
    omega
  have heq := List.append_inj hcomb hlen2
  refine ⟨b.data.reverse.drop a.data.reverse.length, ?_⟩
  nth_rewrite 1 [heq.1]
  exact hsplit

lemma endswith_excl (s a b : String) (hlen : a.data.length ≤ b.data.length)
    (hnot : startsWithL a.data.reverse b.data.reverse = false)
    (hb : endswith s b = true) : endswith s a = false := by
  cases h : endswith s a with
  | false => rfl
  | true => rw [endswith_sub s a b hlen h hb] at hnot; cases hnot

lemma endswith_excl2 (s a b : String) (hlen : b.data.length ≤ a.data.length)
    (hnot : startsWithL b.data.reverse a.data.reverse = false)
    (hb : endswith s b = true) : endswith s a = false := by
  cases h : endswith s a with
  | false => rfl
  | true => rw [endswith_sub s b a hlen hb h] at hnot; cases hnot

lemma makedirs_true (d : String) (dirs : List String) :
    makedirs d true dirs = Except.ok (if d ∈ dirs then dirs else d :: dirs) := by
  unfold makedirs
  by_cases h : d ∈ dirs <;> simp [h]

lemma install_dependencies_noNet (env : Env) (p : PkgInfo) (d : String) :
    (install_dependencies env p d).filter Event.isNet = [] := by
  unfold install_dependencies
  split_ifs <;> simp [List.filter, subprocess_run, depsHeader, Event.isNet]

lemma install_dependencies_noWrite (env : Env) (p : PkgInfo) (d : String) :
    (install_dependencies env p d).filter Event.isWrite = [] := by
  unfold install_dependencies
  split_ifs <;> simp [List.filter, subprocess_run, depsHeader, Event.isWrite]

lemma install_dependencies_noMkdir (env : Env) (p : PkgInfo) (d : String) :
    (install_dependencies env p d).filter Event.isMkdir = [] := by
  unfold install_dependencies
  split_ifs <;> simp [List.filter, subprocess_run, depsHeader, Event.isMkdir]

lemma install_dependencies_noExtract (env : Env) (p : PkgInfo) (d : String) :
    (install_dependencies env p d).filter Event.isExtract = [] := by
  unfold install_dependencies
  split_ifs <;> simp [List.filter, subprocess_run, depsHeader, Event.isExtract]

lemma install_dependencies_printRun (env : Env) (p : PkgInfo) (d : String) :
    (install_dependencies env p d).all (fun e => e.isPrint || e.isRun) = true := by
  unfold install_dependencies
  split_ifs <;> simp [List.all, subprocess_run, depsHeader, Event.isPrint, Event.isRun]

lemma install_dependencies_runs (env : Env) (p : PkgInfo) (d : String)
    (h : (install_dependencies env p d).filter Event.isRun ≠ []) :
    getDeps p d ≠ [] ∧ (d = "debian" ∨ d = "arch" ∨ d = "fedora") := by
  unfold install_dependencies at h
  by_cases hd : getDeps p d = []
  · rw [if_pos hd] at h
    simp [Event.isRun, List.filter] at h
  · refine ⟨hd, ?_⟩
    by_cases h1 : d = "debian"
    · exact Or.inl h1
    by_cases h2 : d = "arch"
    · exact Or.inr (Or.inl h2)
    by_cases h3 : d = "fedora"
    · exact Or.inr (Or.inr h3)
    by_cases h4 : d = "windows"
    · rw [if_neg hd, if_neg h1, if_neg h2, if_neg h3, if_pos h4] at h
      simp [Event.isRun, List.filter, depsHeader] at h
    · rw [if_neg hd, if_neg h1, if_neg h2, if_neg h3, if_neg h4] at h
      simp [Event.isRun, List.filter, depsHeader] at h

lemma install_dependencies_env (env1 env2 : Env) (p : PkgInfo) (d : String) :
    install_dependencies env1 p d = install_dependencies env2 p d := by
  unfold install_dependencies
  split_ifs <;> simp [subprocess_run]

lemma install_file_env (env1 env2 : Env) (path system distro : String) (dirs : List String) :
    install_file env1 path system distro dirs = install_file env2 path system distro dirs := by
  unfold install_file
  split_ifs <;> simp [subprocess_run]

lemma install_loop_env (env1 env2 : Env) (system distro : String) :
    ∀ (fs : List String) (dirs : List String),
      install_loop env1 system distro dirs fs = install_loop env2 system distro dirs fs := by
  intro fs
  induction fs with
  | nil => intro dirs; rfl
  | cons f rest ih =>
    intro dirs
    unfold install_loop
    rw [install_file_env env1 env2 f system distro dirs]
    cases install_file env2 f system distro dirs with
    | error m => rfl
    | ok r =>
      simp only []
      rw [ih r.dirs]

lemma download_loop_env (env1 env2 : Env) (h : env1.assetStatus = env2.assetStatus)
    (dir : String) : ∀ l : List Asset, download_loop env1 dir l = download_loop env2 dir l := by
  intro l
  induction l with
  | nil => rfl
  | cons a rest ih =>
    unfold download_loop
    rw [h, ih]

lemma download_latest_env (env1 env2 : Env) (h1 : env1.releaseStatus = env2.releaseStatus)
    (h2 : env1.releaseAssets = env2.releaseAssets) (h3 : env1.assetStatus = env2.assetStatus)
    (repo : String) (dirs : List String) :
    download_latest env1 repo dirs = download_latest env2 repo dirs := by
  unfold download_latest
  rw [h1, h2, download_loop_env env1 env2 h3]

lemma download_loop_ok (env : Env) (dir : String) (h : ∀ u, env.assetStatus u < 400) :
    ∀ l : List Asset, Res.isExn (download_loop env dir l) = false := by
  intro l
  induction l with
  | nil => rfl
  | cons a rest ih =>
    unfold download_loop
    rw [if_neg (Nat.not_le.mpr (h a.url))]
    cases hdl : download_loop env dir rest with
    | ok evs files => rfl
    | exn evs m => rw [hdl] at ih; simp [Res.isExn] at ih

lemma download_latest_ok (env : Env) (repo : String) (dirs : List String)
    (h : ∀ u, env.assetStatus u < 400) :
    Res.isExn (download_latest env repo dirs) = false := by
  unfold download_latest
  by_cases h1 : env.releaseStatus ≠ 200
  · simp [h1, Res.isExn]
  · by_cases h2 : env.releaseAssets = []
    · simp [h1, h2, Res.isExn]
    · simp only [h1, h2, if_false]
      rw [makedirs_true]
      have hdl := download_loop_ok env "downloads" h env.releaseAssets
      cases hd : download_loop env "downloads" env.releaseAssets with
      | ok evs files => rfl
      | exn evs m => rw [hd] at hdl; simp [Res.isExn] at hdl

lemma install_file_ok (env : Env) (path system distro : String) (dirs : List String) :
    ∃ r, install_file env path system distro dirs = Except.ok r := by
  unfold install_file
  split_ifs <;> first
    | exact ⟨_, rfl⟩
    | (rw [makedirs_true]; exact ⟨_, rfl⟩)

lemma install_loop_ok (env : Env) (system distro : String) :
    ∀ (fs : List String) (dirs : List String),
      Res.isExn (install_loop env system distro dirs fs) = false := by
  intro fs
  induction fs with
  | nil => intro dirs; rfl
  | cons f rest ih =>
    intro dirs
    obtain ⟨r, hr⟩ := install_file_ok env f system distro dirs
    unfold install_loop
    rw [hr]
    simp only []
    have hil := ih r.dirs
    cases hl : install_loop env system distro r.dirs rest with
    | ok evs d => rfl
    | exn evs m => rw [hl] at hil; simp [Res.isExn] at hil

lemma download_latest_query (env : Env) (repo : String) (dirs : List String) :
    Event.httpGet ("https://api.github.com/repos/" ++ repo ++ "/releases/latest")
      ∈ eventsOf (download_latest env repo dirs) := by
  unfold download_latest
  by_cases h1 : env.releaseStatus ≠ 200
  · simp [h1, eventsOf]
  · by_cases h2 : env.releaseAssets = []
    · simp [h1, h2, eventsOf]
    · simp only [h1, h2, if_false]
      rw [makedirs_true]
      cases hd : download_loop env "downloads" env.releaseAssets with
      | ok evs files => simp [eventsOf]
      | exn evs m => simp [eventsOf]

/-- Claim C7: on Linux, `detect_system` returns the distro of the
highest-priority marker present (Debian, then Arch, then Fedora) and
`unknown` when none is present; on Windows it returns distro `windows`; on
any other OS the distro is `unknown`.  Detection is a total function (it
never fails). -/
theorem shipm_C7 (raw : String) (pe : String → Bool) :
    (lower raw = "linux" →
      (pe "/etc/debian_version" = true → detect_system raw pe = ("linux", "debian"))
      ∧ (pe "/etc/debian_version" = false → pe "/etc/arch-release" = true →
           detect_system raw pe = ("linux", "arch"))
      ∧ (pe "/etc/debian_version" = false → pe "/etc/arch-release" = false →
           pe "/etc/fedora-release" = true → detect_system raw pe = ("linux", "fedora"))
      ∧ (pe "/etc/debian_version" = false → pe "/etc/arch-release" = false →
           pe "/etc/fedora-release" = false → detect_system raw pe = ("linux", "unknown")))
    ∧ (lower raw = "windows" → detect_system raw pe = ("windows", "windows"))
    ∧ (lower raw ≠ "linux" → lower raw ≠ "windows" →
         (detect_system raw pe).2 = "unknown") := by
  refine ⟨fun hl => ⟨fun h1 => ?_, fun h1 h2 => ?_, fun h1 h2 h3 => ?_, fun h1 h2 h3 => ?_⟩,
          fun hw => ?_, fun hn1 hn2 => ?_⟩ <;>
    simp_all [detect_system]

/-- Claim C7 witness: with all three markers present on a Linux host,
detection reports Debian (the highest-priority marker). -/
theorem shipm_C7_witness :
    detect_system "Linux" (fun _ => true) = ("linux", "debian") :=
  (shipm_C7 "Linux" (fun _ => true)).1 (by decide) |>.1 rfl

/-- Claim C8: for a non-empty Debian dependency list, `install_dependencies`
issues exactly two subprocess invocations, in order: the apt metadata
refresh, then the non-interactive apt install of the named packages — both
via `sudo` — and no other subprocess. -/
theorem shipm_C8 (env : Env) (pinfo : PkgInfo) (h : getDeps pinfo "debian" ≠ []) :
    install_dependencies env pinfo "debian" =
      [depsHeader (getDeps pinfo "debian"),
       Event.runCmd ["sudo", "apt", "update"],
       Event.runCmd (["sudo", "apt", "install", "-y"] ++ getDeps pinfo "debian")]
    ∧ (install_dependencies env pinfo "debian").filter Event.isRun =
      [Event.runCmd ["sudo", "apt", "update"],
       Event.runCmd (["sudo", "apt", "install", "-y"] ++ getDeps pinfo "debian")] := by
  have he : install_dependencies env pinfo "debian" =
      [depsHeader (getDeps pinfo "debian"),
       Event.runCmd ["sudo", "apt", "update"],
       Event.runCmd (["sudo", "apt", "install", "-y"] ++ getDeps pinfo "debian")] := by
    unfold install_dependencies
    rw [if_neg h, if_pos rfl]
    simp [subprocess_run]
  refine ⟨he, ?_⟩
  rw [he]
  simp [List.filter, depsHeader, Event.isRun]

/-- Claim C8 witness: for the catalog entry `fastfetch` on Debian, the two
invocations are `sudo apt update` and `sudo apt install -y curl libc6`. -/
theorem shipm_C8_witness :
    install_dependencies envA
      { repo := "fastfetch-cli/fastfetch",
        deps := [("debian", ["curl", "libc6"]), ("arch", ["curl"]),
                 ("fedora", ["curl"]), ("windows", [])] } "debian" =
      [depsHeader ["curl", "libc6"],
       Event.runCmd ["sudo", "apt", "update"],
       Event.runCmd ["sudo", "apt", "install", "-y", "curl", "libc6"]] :=
  (shipm_C8 envA
    { repo := "fastfetch-cli/fastfetch",
      deps := [("debian", ["curl", "libc6"]), ("arch", ["curl"]),
               ("fedora", ["curl"]), ("windows", [])] } (by decide)).1

/-- Claim C9: for every path ending in `.tar`, `.tar.gz`, `.tgz` or `.tar.xz`
(and any system, distro and pre-existing directory set — in particular one
already containing the extraction directory), `install_file` succeeds, takes
the tar branch, creates (idempotently) and extracts into the sibling
directory named exactly `path ++ "_extracted"`; a second run with the
extraction directory present also succeeds. -/
theorem shipm_C9 (env : Env) (path system distro : String) (dirs : List String)
    (h : endswith path ".tar.gz" = true ∨ endswith path ".tgz" = true
         ∨ endswith path ".tar.xz" = true ∨ endswith path ".tar" = true) :
    install_file env path system distro dirs
      = Except.ok { events := [Event.print ("Installing " ++ basename path ++ " ..."),
                      Event.makeDir (path ++ "_extracted"),
                      Event.extractTar path (path ++ "_extracted"),
                      Event.print ("Extracted to: " ++ (path ++ "_extracted"))],
                    branch := InstallBranch.tarB,
                    extractDir := some (path ++ "_extracted"),
                    dirs := if (path ++ "_extracted") ∈ dirs then dirs
                            else (path ++ "_extracted") :: dirs }
    ∧ ∃ r2, install_file env path system distro ((path ++ "_extracted") :: dirs)
        = Except.ok r2 := by
  have hdeb : endswith path ".deb" = false := by
    rcases h with h | h | h | h
    · exact endswith_excl path ".deb" ".tar.gz" (by decide) (by decide) h
    · exact endswith_excl path ".deb" ".tgz" (by decide) (by decide) h
    · exact endswith_excl path ".deb" ".tar.xz" (by decide) (by decide) h
    · exact endswith_excl path ".deb" ".tar" (by decide) (by decide) h
  have hrpm : endswith path ".rpm" = false := by
    rcases h with h | h | h | h
    · exact endswith_excl path ".rpm" ".tar.gz" (by decide) (by decide) h
    · exact endswith_excl path ".rpm" ".tgz" (by decide) (by decide) h
    · exact endswith_excl path ".rpm" ".tar.xz" (by decide) (by decide) h
    · exact endswith_excl path ".rpm" ".tar" (by decide) (by decide) h
  have hzip : endswith path ".zip" = false := by
    rcases h with h | h | h | h
    · exact endswith_excl path ".zip" ".tar.gz" (by decide) (by decide) h
    · exact endswith_excl path ".zip" ".tgz" (by decide) (by decide) h
    · exact endswith_excl path ".zip" ".tar.xz" (by decide) (by decide) h
    · exact endswith_excl path ".zip" ".tar" (by decide) (by decide) h
  constructor
  · unfold install_file
    rw [if_neg (by simp [hdeb]), if_neg (by simp [hrpm]), if_neg (by simp [hzip]),
        if_pos h, makedirs_true]
  · exact install_file_ok env path system distro ((path ++ "_extracted") :: dirs)

/-- Claim C9 witness: installing `a.tar.gz` when `a.tar.gz_extracted` already
exists still succeeds and extracts into exactly that directory. -/
theorem shipm_C9_witness :
    install_file envA "a.tar.gz" "linux" "debian" ["a.tar.gz_extracted"]
      = Except.ok { events := [Event.print "Installing a.tar.gz ...",
                      Event.makeDir "a.tar.gz_extracted",
                      Event.extractTar "a.tar.gz" "a.tar.gz_extracted",
                      Event.print "Extracted to: a.tar.gz_extracted"],
                    branch := InstallBranch.tarB,
                    extractDir := some "a.tar.gz_extracted",
                    dirs := ["a.tar.gz_extracted"] } := by
  have hc := (shipm_C9 envA "a.tar.gz" "linux" "debian" ["a.tar.gz_extracted"]
    (Or.inl (by decide))).1
  rw [hc]
  rfl

/-- Claim C4 counterexample: the branch chosen by `install_file` does not
depend only on the path's suffix — the same `.deb` path takes the `.deb`
install branch on `system = "linux"` but the unknown-file-type branch on
`system = "windows"`, so two calls on the same path with different os/distro
values take different branches. -/
theorem shipm_C4_counterexample :
    branchOf (install_file envA "a.deb" "linux" "debian" []) = some InstallBranch.debB
    ∧ branchOf (install_file envA "a.deb" "windows" "windows" [])
        = some InstallBranch.unknownB
    ∧ branchOf (install_file envA "a.deb" "linux" "debian" [])
        ≠ branchOf (install_file envA "a.deb" "windows" "windows" []) := by
  refine ⟨rfl, rfl, by decide⟩

/-- Claim C4 (amended): the branch chosen by `install_file` depends only on
the path's suffix and on whether the os is `linux` — never on the distro or
any other state; a `.deb` (resp. `.rpm`) path takes the `.deb` (resp.
`.rpm`) install branch exactly when the os is linux, and on any other os
both `.deb` and `.rpm` paths fall through to the unknown-file-type
branch. -/
theorem shipm_C4 (env1 env2 : Env) (path system d1 d2 : String)
    (dirs1 dirs2 : List String) :
    branchOf (install_file env1 path system d1 dirs1)
      = branchOf (install_file env2 path system d2 dirs2)
    ∧ (system = "linux" → endswith path ".deb" = true →
         branchOf (install_file env1 path system d1 dirs1) = some InstallBranch.debB)
    ∧ (system = "linux" → endswith path ".rpm" = true →
         branchOf (install_file env1 path system d1 dirs1) = some InstallBranch.rpmB)
    ∧ (system ≠ "linux" → endswith path ".deb" = true →
         branchOf (install_file env1 path system d1 dirs1) = some InstallBranch.unknownB)
    ∧ (system ≠ "linux" → endswith path ".rpm" = true →
         branchOf (install_file env1 path system d1 dirs1) = some InstallBranch.unknownB) := by
  have key : ∀ (e : Env) (dd : String) (ds : List String),
      branchOf (install_file e path system dd ds)
        = (if endswith path ".deb" = true ∧ system = "linux" then some InstallBranch.debB
           else if endswith path ".rpm" = true ∧ system = "linux" then some InstallBranch.rpmB
           else if endswith path ".zip" = true then some InstallBranch.zipB
           else if endswith path ".tar.gz" = true ∨ endswith path ".tgz" = true
                   ∨ endswith path ".tar.xz" = true ∨ endswith path ".tar" = true then
             some InstallBranch.tarB
           else some InstallBranch.unknownB) := by
    intro e dd ds
    unfold install_file
    split_ifs <;> simp [branchOf, makedirs_true]
  refine ⟨by rw [key, key], fun hs hd => ?_, fun hs hr => ?_, fun hs hd => ?_, fun hs hr => ?_⟩
  · rw [key, if_pos ⟨hd, hs⟩]
  · have hdeb : endswith path ".deb" = false :=
      endswith_excl path ".deb" ".rpm" (by decide) (by decide) hr
    rw [key, if_neg (by simp [hdeb]), if_pos ⟨hr, hs⟩]
  · have hrpm : endswith path ".rpm" = false :=
      endswith_excl path ".rpm" ".deb" (by decide) (by decide) hd
    have hzip : endswith path ".zip" = false :=
      endswith_excl path ".zip" ".deb" (by decide) (by decide) hd
    have h1 : endswith path ".tar.gz" = false :=
      endswith_excl2 path ".tar.gz" ".deb" (by decide) (by decide) hd
    have h2 : endswith path ".tgz" = false :=
      endswith_excl path ".tgz" ".deb" (by decide) (by decide) hd
    have h3 : endswith path ".tar.xz" = false :=
      endswith_excl2 path ".tar.xz" ".deb" (by decide) (by decide) hd
    have h4 : endswith path ".tar" = false :=
      endswith_excl path ".tar" ".deb" (by decide) (by decide) hd
    rw [key, if_neg (by simp [hs]), if_neg (by simp [hrpm]), if_neg (by simp [hzip]),
        if_neg (by simp [h1, h2, h3, h4])]
  · have hzip : endswith path ".zip" = false :=
      endswith_excl path ".zip" ".rpm" (by decide) (by decide) hr
    have h1 : endswith path ".tar.gz" = false :=
      endswith_excl2 path ".tar.gz" ".rpm" (by decide) (by decide) hr
    have h2 : endswith path ".tgz" = false :=
      endswith_excl path ".tgz" ".rpm" (by decide) (by decide) hr
    have h3 : endswith path ".tar.xz" = false :=
      endswith_excl2 path ".tar.xz" ".rpm" (by decide) (by decide) hr
    have h4 : endswith path ".tar" = false :=
      endswith_excl path ".tar" ".rpm" (by decide) (by decide) hr
    rw [key, if_neg (by simp [hs]), if_neg (by simp [hs]), if_neg (by simp [hzip]),
        if_neg (by simp [h1, h2, h3, h4])]

/-- Claim C4 amended witness: a `.deb` path on linux takes the `.deb` branch
whatever the distro, and the branch agrees across different environments and
distros. -/
theorem shipm_C4_witness :
    branchOf (install_file envA "a.deb" "linux" "arch" [])
      = branchOf (install_file envGood "a.deb" "linux" "fedora" ["downloads"])
    ∧ branchOf (install_file envA "a.deb" "linux" "arch" []) = some InstallBranch.debB :=
  ⟨(shipm_C4 envA envGood "a.deb" "linux" "arch" "fedora" [] ["downloads"]).1,
   (shipm_C4 envA envGood "a.deb" "linux" "arch" "fedora" [] ["downloads"]).2.1 rfl (by decide)⟩

/-- Claim C2: with a successful release query, `resolveLatestAsset` returns
`found a` exactly when `a` is the first asset (in release order) whose name
contains the pattern as a substring, and `notFound` exactly when no asset
name contains the pattern; at most one asset is ever selected.  (The
resolver is modelled from the spec: the single-asset selection variant is
absent from `src/`.) -/
theorem shipm_C2 (assets : List Asset) (pat : String) (hne : assets ≠ []) :
    (∀ a : Asset, resolveLatestAsset 200 assets pat = ResolveResult.found a ↔
       (strContains a.name pat = true
        ∧ ∃ pre post, assets = pre ++ a :: post
            ∧ ∀ b ∈ pre, strContains b.name pat = false))
    ∧ (resolveLatestAsset 200 assets pat = ResolveResult.notFound ↔
       ∀ a ∈ assets, strContains a.name pat = false) := by
  have hres : ∀ a : Asset, resolveLatestAsset 200 assets pat = ResolveResult.found a ↔
      assets.find? (fun x => strContains x.name pat) = some a := by
    intro a
    unfold resolveLatestAsset
    rw [if_neg (by norm_num)]
    cases hf : assets.find? (fun x => strContains x.name pat) with
    | some b => simp
    | none => simp
  have hresn : resolveLatestAsset 200 assets pat = ResolveResult.notFound ↔
      assets.find? (fun x => strContains x.name pat) = none := by
    unfold resolveLatestAsset
    rw [if_neg (by norm_num)]
    cases hf : assets.find? (fun x => strContains x.name pat) with
    | some b => simp
    | none => simp
  constructor
  · intro a
    rw [hres a, List.find?_eq_some]
    simp [Bool.not_eq_true']
  · rw [hresn, List.find?_eq_none]
    simp [Bool.not_eq_true']

/-- Claim C2 witness: the spec's example — assets
`["tool-x86_64.deb", "tool.rpm", "tool.zip"]` with pattern `"deb"` resolve to
`tool-x86_64.deb`, and with pattern `"appimage"` to `notFound`. -/
theorem shipm_C2_witness :
    resolveLatestAsset 200
      [{ name := "tool-x86_64.deb", url := "u1" }, { name := "tool.rpm", url := "u2" },
       { name := "tool.zip", url := "u3" }] "deb"
      = ResolveResult.found { name := "tool-x86_64.deb", url := "u1" }
    ∧ resolveLatestAsset 200
      [{ name := "tool-x86_64.deb", url := "u1" }, { name := "tool.rpm", url := "u2" },
       { name := "tool.zip", url := "u3" }] "appimage"
      = ResolveResult.notFound :=
  ⟨((shipm_C2 [{ name := "tool-x86_64.deb", url := "u1" }, { name := "tool.rpm", url := "u2" },
       { name := "tool.zip", url := "u3" }] "deb" (by decide)).1
      { name := "tool-x86_64.deb", url := "u1" }).mpr
      ⟨by decide, [], [{ name := "tool.rpm", url := "u2" }, { name := "tool.zip", url := "u3" }],
       rfl, by decide⟩,
   ((shipm_C2 [{ name := "tool-x86_64.deb", url := "u1" }, { name := "tool.rpm", url := "u2" },
       { name := "tool.zip", url := "u3" }] "appimage" (by decide)).2).mpr (by decide)⟩

/-- Claim C1: `cache_fetch` with `force = false` and an existing file of the
target name performs no event at all (in particular zero network requests
and zero file writes) and returns the existing path unchanged; conversely a
network request or an overwrite happens only when `force = true` or the file
is absent (cache miss).  (The cache is modelled from the spec: the caching
fetch variant is absent from `src/`.) -/
theorem shipm_C1 (asset : Asset) (force : Bool) (root : String)
    (fe : String → Bool) (st : String → Nat) :
    (force = false → fe (root ++ "/" ++ asset.name) = true →
       cache_fetch asset force root fe st = Res.ok [] (root ++ "/" ++ asset.name))
    ∧ ((eventsOf (cache_fetch asset force root fe st)).filter Event.isNet ≠ [] ↔
         (force = true ∨ fe (root ++ "/" ++ asset.name) = false))
    ∧ ((eventsOf (cache_fetch asset force root fe st)).filter Event.isWrite ≠ [] →
         (force = true ∨ fe (root ++ "/" ++ asset.name) = false)) := by
  unfold cache_fetch
  by_cases hc : force = false ∧ fe (root ++ "/" ++ asset.name) = true
  · rw [if_pos hc]
    refine ⟨fun _ _ => rfl, ?_, ?_⟩
    · simp [eventsOf, hc.1, hc.2]
    · simp [eventsOf]
  · rw [if_neg hc]
    have hmiss : force = true ∨ fe (root ++ "/" ++ asset.name) = false := by
      cases hf : force with
      | true => exact Or.inl rfl
      | false =>
        cases hfe : fe (root ++ "/" ++ asset.name) with
        | false => exact Or.inr rfl
        | true => exact absurd ⟨hf, hfe⟩ hc
    refine ⟨fun h1 h2 => absurd ⟨h1, h2⟩ hc, ?_, fun _ => hmiss⟩
    by_cases hs : 400 ≤ st asset.url
    · rw [if_pos hs]
      simp only [eventsOf]
      constructor
      · intro _; exact hmiss
      · intro _; simp [List.filter, Event.isNet]
    · rw [if_neg hs]
      simp only [eventsOf]
      constructor
      · intro _; exact hmiss
      · intro _; simp [List.filter, Event.isNet]

/-- Claim C1 witness: a cache hit (file present, `force = false`) returns the
cached path with an empty event trace, and a cache miss with `force = false`
performs a network request. -/
theorem shipm_C1_witness :
    cache_fetch { name := "a.deb", url := "u" } false "cache" (fun _ => true) (fun _ => 200)
      = Res.ok [] "cache/a.deb"
    ∧ ((eventsOf (cache_fetch { name := "a.deb", url := "u" } false "cache"
         (fun _ => false) (fun _ => 200))).filter Event.isNet ≠ []) :=
  ⟨(shipm_C1 { name := "a.deb", url := "u" } false "cache" (fun _ => true) (fun _ => 200)).1
     rfl rfl,
   (shipm_C1 { name := "a.deb", url := "u" } false "cache" (fun _ => false)
     (fun _ => 200)).2.1.mpr (Or.inr rfl)⟩

/-- Claim C10: the `deps` command for a known package performs no network
request, writes no file, creates no directory and extracts nothing; its
trace is exactly the system line plus the dependency-installer events, which
are only prints and subprocess invocations, and subprocess invocations occur
only for a supported distro with a non-empty dependency list. -/
theorem shipm_C10 (env : Env) (p k : String) (pinfo : PkgInfo)
    (hargv : env.argv = [p, "deps", k]) (hk : lookupPkg k = some pinfo) :
    shipm_main env = Res.ok (Event.print ("System: "
        ++ (detect_system env.rawSystem env.pathExists).1 ++ ", Distro: "
        ++ (detect_system env.rawSystem env.pathExists).2)
      :: install_dependencies env pinfo (detect_system env.rawSystem env.pathExists).2) ()
    ∧ (eventsOf (shipm_main env)).filter Event.isNet = []
    ∧ (eventsOf (shipm_main env)).filter Event.isWrite = []
    ∧ (eventsOf (shipm_main env)).filter Event.isMkdir = []
    ∧ (eventsOf (shipm_main env)).filter Event.isExtract = []
    ∧ (eventsOf (shipm_main env)).all (fun e => e.isPrint || e.isRun) = true
    ∧ ((eventsOf (shipm_main env)).filter Event.isRun ≠ [] →
         getDeps pinfo (detect_system env.rawSystem env.pathExists).2 ≠ []
         ∧ ((detect_system env.rawSystem env.pathExists).2 = "debian"
            ∨ (detect_system env.rawSystem env.pathExists).2 = "arch"
            ∨ (detect_system env.rawSystem env.pathExists).2 = "fedora")) := by
  have hmain : shipm_main env = Res.ok (Event.print ("System: "
      ++ (detect_system env.rawSystem env.pathExists).1 ++ ", Distro: "
      ++ (detect_system env.rawSystem env.pathExists).2)
    :: install_dependencies env pinfo (detect_system env.rawSystem env.pathExists).2) () := by
    simp only [shipm_main, hargv]
    norm_num
    rw [hk]
  refine ⟨hmain, ?_, ?_, ?_, ?_, ?_, ?_⟩
  · rw [hmain]
    simp [eventsOf, Event.isNet, install_dependencies_noNet]
  · rw [hmain]
    simp [eventsOf, Event.isWrite, install_dependencies_noWrite]
  · rw [hmain]
    simp [eventsOf, Event.isMkdir, install_dependencies_noMkdir]
  · rw [hmain]
    simp [eventsOf, Event.isExtract, install_dependencies_noExtract]
  · rw [hmain]
    simp only [eventsOf, List.all_cons, Bool.and_eq_true]
    exact ⟨by rfl, install_dependencies_printRun env pinfo _⟩
  · intro h
    rw [hmain] at h
    simp only [eventsOf] at h
    have hstep : (Event.print ("System: " ++ (detect_system env.rawSystem env.pathExists).1
        ++ ", Distro: " ++ (detect_system env.rawSystem env.pathExists).2)
        :: install_dependencies env pinfo
             (detect_system env.rawSystem env.pathExists).2).filter Event.isRun
        = (install_dependencies env pinfo
             (detect_system env.rawSystem env.pathExists).2).filter Event.isRun := by
      simp [Event.isRun]
    rw [hstep] at h
    exact install_dependencies_runs env pinfo _ h

/-- Claim C10 witness: running `deps fastfetch` on a Debian host performs no
network request and writes nothing; its events are the system line plus the
dependency-installer events. -/
theorem shipm_C10_witness :
    (eventsOf (shipm_main { envGood with argv := ["shipm", "deps", "fastfetch"] })).filter
        Event.isNet = []
    ∧ (eventsOf (shipm_main { envGood with argv := ["shipm", "deps", "fastfetch"] })).filter
        Event.isWrite = []
    ∧ (eventsOf (shipm_main { envGood with argv := ["shipm", "deps", "fastfetch"] })).filter
        Event.isExtract = [] :=
  ⟨(shipm_C10 { envGood with argv := ["shipm", "deps", "fastfetch"] } "shipm" "fastfetch"
      { repo := "fastfetch-cli/fastfetch",
        deps := [("debian", ["curl", "libc6"]), ("arch", ["curl"]),
                 ("fedora", ["curl"]), ("windows", [])] } rfl rfl).2.1,
   (shipm_C10 { envGood with argv := ["shipm", "deps", "fastfetch"] } "shipm" "fastfetch"
      { repo := "fastfetch-cli/fastfetch",
        deps := [("debian", ["curl", "libc6"]), ("arch", ["curl"]),
                 ("fedora", ["curl"]), ("windows", [])] } rfl rfl).2.2.1,
   (shipm_C10 { envGood with argv := ["shipm", "deps", "fastfetch"] } "shipm" "fastfetch"
      { repo := "fastfetch-cli/fastfetch",
        deps := [("debian", ["curl", "libc6"]), ("arch", ["curl"]),
                 ("fedora", ["curl"]), ("windows", [])] } rfl rfl).2.2.2.1⟩

/-- Claim C5: for the `install` command, if the latest-release query answers
non-200 or the release has no assets, `main` prints a diagnostic after the
single release query and returns normally: the whole trace is the system
line, the dependency events, the one release-query request and the
diagnostic — no file write, no directory creation, no extraction, and no
network request besides the release query itself. -/
theorem shipm_C5 (env : Env) (p k : String) (pinfo : PkgInfo)
    (hargv : env.argv = [p, "install", k]) (hk : lookupPkg k = some pinfo)
    (hfail : env.releaseStatus ≠ 200 ∨ env.releaseAssets = []) :
    shipm_main env = Res.ok (Event.print ("System: "
        ++ (detect_system env.rawSystem env.pathExists).1 ++ ", Distro: "
        ++ (detect_system env.rawSystem env.pathExists).2)
      :: install_dependencies env pinfo (detect_system env.rawSystem env.pathExists).2
      ++ [Event.httpGet ("https://api.github.com/repos/" ++ pinfo.repo ++ "/releases/latest"),
          Event.print (if env.releaseStatus ≠ 200
                       then "Error: Could not fetch release for " ++ pinfo.repo
                       else "No assets found in latest release.")]) ()
    ∧ (eventsOf (shipm_main env)).filter Event.isNet
        = [Event.httpGet ("https://api.github.com/repos/" ++ pinfo.repo ++ "/releases/latest")]
    ∧ (eventsOf (shipm_main env)).filter Event.isWrite = []
    ∧ (eventsOf (shipm_main env)).filter Event.isMkdir = []
    ∧ (eventsOf (shipm_main env)).filter Event.isExtract = [] := by
  have hdl : download_latest env pinfo.repo env.dirs
      = Res.ok [Event.httpGet ("https://api.github.com/repos/" ++ pinfo.repo
                  ++ "/releases/latest"),
                Event.print (if env.releaseStatus ≠ 200
                             then "Error: Could not fetch release for " ++ pinfo.repo
                             else "No assets found in latest release.")]
          (env.dirs, none) := by
    by_cases h1 : env.releaseStatus ≠ 200
    · unfold download_latest
      rw [if_pos h1, if_pos h1]
    · have h2 : env.releaseAssets = [] := hfail.resolve_left h1
      unfold download_latest
      rw [if_neg h1, if_pos h2, if_neg h1]
  have hmain : shipm_main env = Res.ok (Event.print ("System: "
      ++ (detect_system env.rawSystem env.pathExists).1 ++ ", Distro: "
      ++ (detect_system env.rawSystem env.pathExists).2)
    :: install_dependencies env pinfo (detect_system env.rawSystem env.pathExists).2
    ++ [Event.httpGet ("https://api.github.com/repos/" ++ pinfo.repo ++ "/releases/latest"),
        Event.print (if env.releaseStatus ≠ 200
                     then "Error: Could not fetch release for " ++ pinfo.repo
                     else "No assets found in latest release.")]) () := by
    simp only [shipm_main, hargv]
    norm_num
    rw [hk]
    simp only [show ("install" : String) ≠ "deps" from by decide, if_false, reduceIte]
    rw [hdl]
    simp only [ite_not]
  refine ⟨hmain, ?_, ?_, ?_, ?_⟩
  · rw [hmain]
    simp [eventsOf, Event.isNet, install_dependencies_noNet]
  · rw [hmain]
    simp [eventsOf, Event.isWrite, install_dependencies_noWrite]
  · rw [hmain]
    simp [eventsOf, Event.isMkdir, install_dependencies_noMkdir]
  · rw [hmain]
    simp [eventsOf, Event.isExtract, install_dependencies_noExtract]

/-- Claim C5 witness: with the release query answering 404 for `fastfetch`,
the only network event is the release query itself and nothing is written. -/
theorem shipm_C5_witness :
    (eventsOf (shipm_main { envGood with releaseStatus := 404 })).filter Event.isNet
      = [Event.httpGet ("https://api.github.com/repos/" ++ "fastfetch-cli/fastfetch"
          ++ "/releases/latest")]
    ∧ (eventsOf (shipm_main { envGood with releaseStatus := 404 })).filter Event.isWrite
      = [] :=
  ⟨(shipm_C5 { envGood with releaseStatus := 404 } "shipm" "fastfetch"
      { repo := "fastfetch-cli/fastfetch",
        deps := [("debian", ["curl", "libc6"]), ("arch", ["curl"]),
                 ("fedora", ["curl"]), ("windows", [])] } rfl rfl (Or.inl (by decide))).2.1,
   (shipm_C5 { envGood with releaseStatus := 404 } "shipm" "fastfetch"
      { repo := "fastfetch-cli/fastfetch",
        deps := [("debian", ["curl", "libc6"]), ("arch", ["curl"]),
                 ("fedora", ["curl"]), ("windows", [])] } rfl rfl (Or.inl (by decide))).2.2.1⟩

/-- Claim C3 counterexample: in the environment where the single asset of the
`fastfetch` release answers 404 to its download request, `main` terminates
via a propagating exception (`raise_for_status()` is not caught anywhere),
so not every failure surfaces as a printed line with `main` running to
completion. -/
theorem shipm_C3_counterexample : Res.isExn (shipm_main envNotFound) = true := rfl

/-- Claim C3 (amended): every failure other than an HTTP-error response
(status >= 400) to an individual asset download surfaces as a printed line
with `main` running to completion — if no asset download answers an
HTTP-error status, no input makes `main` terminate via an exception.  (The
uncaught path is `raise_for_status()` in `download_latest`.) -/
theorem shipm_C3 (env : Env) (h : ∀ u, env.assetStatus u < 400) :
    Res.isExn (shipm_main env) = false := by
  unfold shipm_main
  by_cases hl : env.argv.length < 3
  · rw [if_pos hl]
    rfl
  · rw [if_neg hl]
    cases hpk : lookupPkg (env.argv.getD 2 "") with
    | none => rfl
    | some pinfo =>
      dsimp only
      by_cases hc : env.argv.getD 1 "" = "deps"
      · rw [if_pos hc]
        rfl
      · rw [if_neg hc]
        by_cases hi : env.argv.getD 1 "" = "install"
        · rw [if_pos hi]
          have hdl := download_latest_ok env pinfo.repo env.dirs h
          cases hd : download_latest env pinfo.repo env.dirs with
          | exn evs m => rw [hd] at hdl; simp [Res.isExn] at hdl
          | ok evs v =>
            obtain ⟨dirs2, files⟩ := v
            dsimp only
            cases files with
            | none => rfl
            | some fs =>
              dsimp only
              have hil := install_loop_ok env (detect_system env.rawSystem env.pathExists).1
                (detect_system env.rawSystem env.pathExists).2 fs dirs2
              cases hli : install_loop env (detect_system env.rawSystem env.pathExists).1
                  (detect_system env.rawSystem env.pathExists).2 dirs2 fs with
              | ok evs2 d => rfl
              | exn evs2 m => rw [hli] at hil; simp [Res.isExn] at hil
        · rw [if_neg hi]
          rfl

/-- Claim C3 amended witness: in the all-successful environment `main`
completes normally. -/
theorem shipm_C3_witness : Res.isExn (shipm_main envGood) = false :=
  shipm_C3 envGood (fun _ => (by decide : (200 : Nat) < 400))

lemma download_loop_paths (env : Env) (dir : String) (h : ∀ u, env.assetStatus u < 400) :
    ∀ l : List Asset, ∃ evs, download_loop env dir l
      = Res.ok evs (l.map (fun a => dir ++ "/" ++ a.name)) := by
  intro l
  induction l with
  | nil => exact ⟨[], rfl⟩
  | cons a rest ih =>
    obtain ⟨evs, hevs⟩ := ih
    refine ⟨[Event.print ("Downloading " ++ a.name), Event.httpGet a.url,
             Event.writeFile (dir ++ "/" ++ a.name),
             Event.print ("Saved to " ++ (dir ++ "/" ++ a.name))] ++ evs, ?_⟩
    unfold download_loop
    rw [if_neg (Nat.not_le.mpr (h a.url)), hevs]
    rfl

lemma install_file_events_head (env : Env) (f system distro : String) (dirs : List String) :
    ∃ r rest2, install_file env f system distro dirs = Except.ok r
      ∧ r.events = Event.print ("Installing " ++ basename f ++ " ...") :: rest2 := by
  unfold install_file
  split_ifs <;> first
    | exact ⟨_, _, rfl, rfl⟩
    | (rw [makedirs_true]; exact ⟨_, _, rfl, rfl⟩)

lemma install_loop_contains (env : Env) (system distro : String) (dirs : List String)
    (f : String) (rest : List String) :
    Event.print ("Installing " ++ basename f ++ " ...")
      ∈ eventsOf (install_loop env system distro dirs (f :: rest)) := by
  obtain ⟨r, rest2, hr, hev⟩ := install_file_events_head env f system distro dirs
  unfold install_loop
  rw [hr]
  dsimp only
  cases hl : install_loop env system distro r.dirs rest with
  | ok evs d => simp [eventsOf, hev]
  | exn evs m => simp [eventsOf, hev]

/-- Claim C6: subprocess exit codes never influence the behavior of `main` —
the whole outcome (trace and result) of the `install` command is identical
for any two exit-code assignments, because no call site examines the value
returned by `subprocess.run` — so a failing dependency install does not
abort the pipeline: the release query is always issued afterwards, and when
the release download succeeds the artifact-installation step is reached. -/
theorem shipm_C6 (env : Env) (ec1 ec2 : List String → Int) (p k : String) (pinfo : PkgInfo)
    (hargv : env.argv = [p, "install", k]) (hk : lookupPkg k = some pinfo) :
    shipm_main { env with exitCode := ec1 } = shipm_main { env with exitCode := ec2 }
    ∧ Event.httpGet ("https://api.github.com/repos/" ++ pinfo.repo ++ "/releases/latest")
        ∈ eventsOf (shipm_main { env with exitCode := ec1 })
    ∧ (env.releaseStatus = 200 → (∀ u, env.assetStatus u < 400) →
        ∀ a rest, env.releaseAssets = a :: rest →
        Event.print ("Installing " ++ basename ("downloads" ++ "/" ++ a.name) ++ " ...")
          ∈ eventsOf (shipm_main { env with exitCode := ec1 })) := by
  have hlen : ¬ env.argv.length < 3 := by rw [hargv]; simp
  have hk2 : lookupPkg (env.argv.getD 2 "") = some pinfo := by rw [hargv]; exact hk
  have hdeps2 : ¬ env.argv.getD 1 "" = "deps" := by
    rw [hargv]; exact (by decide : ¬ (("install" : String) = "deps"))
  have hinst2 : env.argv.getD 1 "" = "install" := by rw [hargv]; rfl
  refine ⟨?_, ?_, ?_⟩
  · have hdep := install_dependencies_env ({ env with exitCode := ec1 })
      ({ env with exitCode := ec2 })
    have hdlx := download_latest_env ({ env with exitCode := ec1 })
      ({ env with exitCode := ec2 }) rfl rfl rfl
    have hloop := install_loop_env ({ env with exitCode := ec1 }) ({ env with exitCode := ec2 })
    unfold shipm_main
    dsimp only
    simp only [hdep, hdlx, hloop]
  · unfold shipm_main
    dsimp only
    rw [if_neg hlen, hk2]
    dsimp only
    rw [if_neg hdeps2, if_pos hinst2]
    have hq := download_latest_query ({ env with exitCode := ec1 }) pinfo.repo env.dirs
    cases hd : download_latest ({ env with exitCode := ec1 }) pinfo.repo env.dirs with
    | exn evs m =>
      rw [hd] at hq
      simp only [eventsOf] at hq ⊢
      simp [hq]
    | ok evs v =>
      rw [hd] at hq
      simp only [eventsOf] at hq
      obtain ⟨dirs2, files⟩ := v
      dsimp only
      cases files with
      | none => simp [eventsOf, hq]
      | some fs =>
        dsimp only
        cases hli : install_loop ({ env with exitCode := ec1 })
            (detect_system env.rawSystem env.pathExists).1
            (detect_system env.rawSystem env.pathExists).2 dirs2 fs with
        | ok evs2 d => simp [eventsOf, hq]
        | exn evs2 m => simp [eventsOf, hq]
  · intro hst hok a rest hassets
    obtain ⟨evs, hevs⟩ := download_loop_paths ({ env with exitCode := ec1 }) "downloads" hok
      (a :: rest)
    have hdl : download_latest ({ env with exitCode := ec1 }) pinfo.repo env.dirs
        = Res.ok (Event.httpGet ("https://api.github.com/repos/" ++ pinfo.repo
              ++ "/releases/latest") :: Event.makeDir "downloads" :: evs)
            (if "downloads" ∈ env.dirs then env.dirs else "downloads" :: env.dirs,
             some (("downloads" ++ "/" ++ a.name)
               :: rest.map (fun x => "downloads" ++ "/" ++ x.name))) := by
      unfold download_latest
      dsimp only
      rw [if_neg (by simp [hst])]
      rw [hassets]
      rw [if_neg (by simp : ¬ (a :: rest = []))]
      rw [makedirs_true]
      dsimp only
      rw [hassets] at hevs
      rw [hevs]
      rfl
    unfold shipm_main
    dsimp only
    rw [if_neg hlen, hk2]
    dsimp only
    rw [if_neg hdeps2, if_pos hinst2, hdl]
    dsimp only
    have hmem := install_loop_contains ({ env with exitCode := ec1 })
      (detect_system env.rawSystem env.pathExists).1
      (detect_system env.rawSystem env.pathExists).2
      (if "downloads" ∈ env.dirs then env.dirs else "downloads" :: env.dirs)
      ("downloads" ++ "/" ++ a.name) (rest.map (fun x => "downloads" ++ "/" ++ x.name))
    cases hli : install_loop ({ env with exitCode := ec1 })
        (detect_system env.rawSystem env.pathExists).1
        (detect_system env.rawSystem env.pathExists).2
        (if "downloads" ∈ env.dirs then env.dirs else "downloads" :: env.dirs)
        (("downloads" ++ "/" ++ a.name) :: rest.map (fun x => "downloads" ++ "/" ++ x.name)) with
    | ok evs2 d =>
      rw [hli] at hmem
      simp only [eventsOf] at hmem ⊢
      simp at hmem
      simp [hmem]
    | exn evs2 m =>
      rw [hli] at hmem
      simp only [eventsOf] at hmem ⊢
      simp at hmem
      simp [hmem]

/-- Claim C6 witness: with every subprocess exiting 1 versus exiting 0, the
`install fastfetch` run is identical, still issues the release query, and
still reaches the artifact-installation step for the downloaded asset. -/
theorem shipm_C6_witness :
    shipm_main { envGood with exitCode := fun _ => 1 }
      = shipm_main { envGood with exitCode := fun _ => 0 }
    ∧ Event.httpGet ("https://api.github.com/repos/" ++ "fastfetch-cli/fastfetch"
        ++ "/releases/latest")
      ∈ eventsOf (shipm_main { envGood with exitCode := fun _ => 1 })
    ∧ Event.print ("Installing " ++ basename ("downloads" ++ "/" ++ "fastfetch.deb") ++ " ...")
      ∈ eventsOf (shipm_main { envGood with exitCode := fun _ => 1 }) :=
  ⟨(shipm_C6 envGood (fun _ => 1) (fun _ => 0) "shipm" "fastfetch"
      { repo := "fastfetch-cli/fastfetch",
        deps := [("debian", ["curl", "libc6"]), ("arch", ["curl"]),
                 ("fedora", ["curl"]), ("windows", [])] } rfl rfl).1,
   (shipm_C6 envGood (fun _ => 1) (fun _ => 0) "shipm" "fastfetch"
      { repo := "fastfetch-cli/fastfetch",
        deps := [("debian", ["curl", "libc6"]), ("arch", ["curl"]),
                 ("fedora", ["curl"]), ("windows", [])] } rfl rfl).2.1,
   (shipm_C6 envGood (fun _ => 1) (fun _ => 0) "shipm" "fastfetch"
      { repo := "fastfetch-cli/fastfetch",
        deps := [("debian", ["curl", "libc6"]), ("arch", ["curl"]),
                 ("fedora", ["curl"]), ("windows", [])] } rfl rfl).2.2 rfl
     (fun _ => (by decide : (200 : Nat) < 400))
     { name := "fastfetch.deb", url := "http://x/fastfetch.deb" } [] rfl⟩
